import Mathlib

/-!
Verification of `mofa/utils/xyz.py` from gpauloski/mof-generation-at-scale.

The module is a thin layer over RDKit.  RDKit entry points
(`Chem.MolFromXYZBlock`, `rdDetermineBonds.DetermineConnectivity`,
`rdDetermineBonds.DetermineBondOrders`, `Chem.AddHs`, `Chem.MolToSmiles`,
`Chem.MolFromSmiles`, `AllChem.EmbedMolecule`, `AllChem.MMFFOptimizeMolecule`,
`Chem.MolToXYZBlock`) are treated as black-box collaborators: they appear as
fields of a `Toolkit` record, so every theorem quantifies over their behaviour.
The module's own logic — the distance-based bond-order classifier of
`unsaturated_xyz_to_mol`, the composition structure of the four functions, and
the lock discipline of `smiles_to_xyz` — is transcribed directly.

The reference tables `const.BONDS_2`, `const.BONDS_3` and `const.MARGINS_EDM`
live in `mofa/utils/src/const.py`, which is not part of the sources being
verified; they are kept as parameters (a curried partial lookup for each table,
an index function for the margins), exactly mirroring how the code consults
them: `type_1 in BONDS_2 and type_2 in BONDS_2[type_1]` and `margins[1]`,
`margins[2]`.
-/

namespace MofaXyz

/-- RDKit bond types that matter here.  `Chem.BondType` has many members
(aromatic, dative, ...); the classifier in `unsaturated_xyz_to_mol` only ever
assigns `SINGLE`, `DOUBLE` or `TRIPLE`, and `unspecified` is the state of a
bond whose type was never set. -/
inductive BondType where
  | single
  | double
  | triple
  | aromatic
  | unspecified
  deriving DecidableEq, Repr

/-- The bond-order classifier of `unsaturated_xyz_to_mol`
(src/mofa/utils/xyz.py lines 86-99), transcribed for one bond.

Source:
```text
bond_type = Chem.BondType.SINGLE
if type_1 in const.BONDS_2 and type_2 in const.BONDS_2[type_1]:
    thr_bond2 = const.BONDS_2[type_1][type_2] + margins[1]
    if distance < thr_bond2:
        bond_type = Chem.BondType.DOUBLE
        if type_1 in const.BONDS_3 and type_2 in const.BONDS_3[type_1]:
            thr_bond3 = const.BONDS_3[type_1][type_2] + margins[2]
            if distance < thr_bond3:
                bond_type = Chem.BondType.TRIPLE
```
The two-level dict membership test plus lookup is modelled by a curried
`Option`-valued lookup.  The scalar type is any linearly ordered additive type
(the code works on Python floats; theorems are stated generically and
instantiated at `ℝ` for the real pipeline and at `ℚ` for evaluation). -/
def inferBondType {α : Type} [LinearOrder α] [Add α]
    (BONDS_2 BONDS_3 : String → String → Option α) (margins : Fin 3 → α)
    (type_1 type_2 : String) (distance : α) : BondType :=
  match BONDS_2 type_1 type_2 with
  | none => BondType.single
  | some b2 =>
    let thr_bond2 := b2 + margins 1
    if distance < thr_bond2 then
      match BONDS_3 type_1 type_2 with
      | none => BondType.double
      | some b3 =>
        let thr_bond3 := b3 + margins 2
        if distance < thr_bond3 then BondType.triple else BondType.double
    else BondType.single

/-- An atom: element symbol and the conformer position of the atom
(`conformer.GetPositions()` row), a 3-vector of coordinates in angstroms. -/
structure Atom (α : Type) where
  symbol : String
  pos : Fin 3 → α

/-- A bond: indices of its begin and end atoms (`GetBeginAtom` / `GetEndAtom`)
and its bond type. -/
structure Bond where
  beginIdx : Nat
  endIdx : Nat
  type : BondType
  deriving DecidableEq, Repr

/-- A molecule as this module observes it: the atom table (symbols plus
conformer-0 positions) and the bond table.  `propsComputed` models the valence
bookkeeping recomputed by `mol.UpdatePropertyCache()`. -/
structure Mol (α : Type) where
  atoms : List (Atom α)
  bonds : List Bond
  propsComputed : Bool := false

/-- Position of atom `i`, i.e. `positions[i, :]`.  Bonds returned by RDKit
always refer to valid atom indices, so the default is never reached there. -/
def Mol.position {α : Type} [Inhabited α] (mol : Mol α) (i : Nat) : Fin 3 → α :=
  match mol.atoms[i]? with
  | some a => a.pos
  | none => fun _ => default

/-- Element symbol of atom `i`, i.e. `mol.GetAtomWithIdx(i).GetSymbol()`. -/
def Mol.symbol {α : Type} (mol : Mol α) (i : Nat) : String :=
  match mol.atoms[i]? with
  | some a => a.symbol
  | none => ""

/-- The `for bond in mol.GetBonds()` loop of `unsaturated_xyz_to_mol`
(src/mofa/utils/xyz.py lines 75-99): for every bond, compute the distance
between its two atoms from the conformer positions and assign the inferred
bond type in place.  `distFn` is the distance computation
`np.linalg.norm(positions[i] - positions[j]) * 100`; it is a parameter so that
the loop can be stated over any scalar type, and is instantiated with the real
formula in `unsaturated_xyz_to_mol` below. -/
def setBondOrders {α : Type} [LinearOrder α] [Add α] [Inhabited α]
    (distFn : (Fin 3 → α) → (Fin 3 → α) → α)
    (BONDS_2 BONDS_3 : String → String → Option α) (margins : Fin 3 → α)
    (mol : Mol α) : Mol α :=
  { mol with
    bonds := mol.bonds.map fun bond =>
      let distance := distFn (mol.position bond.beginIdx) (mol.position bond.endIdx)
      let type_1 := mol.symbol bond.beginIdx
      let type_2 := mol.symbol bond.endIdx
      { bond with type := inferBondType BONDS_2 BONDS_3 margins type_1 type_2 distance } }

/-- The RDKit entry points used by the XYZ-side functions, as abstract
collaborators.  Each field is the pure-state-transformer view of the
corresponding call:

* `molFromXYZBlock` — `Chem.MolFromXYZBlock` (returns `None`, i.e. `none`,
  on unparseable input);
* `determineConnectivity` — `rdDetermineBonds.DetermineConnectivity`
  (in-place mutation, modelled as molecule to molecule);
* `determineBondOrders` — `rdDetermineBonds.DetermineBondOrders` (in-place);
* `addHs` — `Chem.AddHs mol explicitOnly addCoords`: RDKit returns a NEW
  molecule and leaves its argument unchanged;
* `molToSmiles` — `Chem.MolToSmiles`, the canonical-SMILES serializer. -/
structure Toolkit (α : Type) where
  molFromXYZBlock : String → Option (Mol α)
  determineConnectivity : Mol α → Mol α
  determineBondOrders : Mol α → Mol α
  addHs : Mol α → Bool → Bool → Mol α
  molToSmiles : Mol α → String

/-- Modelled from RDKit semantics: `mol.UpdatePropertyCache()` recomputes
valence bookkeeping in place ("Detects the valency", per the source comment)
and does not modify the atom or bond tables. -/
def UpdatePropertyCache {α : Type} (mol : Mol α) : Mol α :=
  { mol with propsComputed := true }

/-- `xyz_to_mol` (src/mofa/utils/xyz.py lines 13-25):
parse the XYZ block, then `DetermineConnectivity`, then `DetermineBondOrders`,
and return the molecule.  A parse failure (`None` molecule) propagates as
`none`: in Python the subsequent call would raise. -/
def xyz_to_mol {α : Type} (tk : Toolkit α) (xyz : String) : Option (Mol α) :=
  (tk.molFromXYZBlock xyz).map fun mol =>
    tk.determineBondOrders (tk.determineConnectivity mol)

/-- `xyz_to_smiles` (src/mofa/utils/xyz.py lines 28-38):
`mol = xyz_to_mol(xyz); return Chem.MolToSmiles(mol)`. -/
def xyz_to_smiles {α : Type} (tk : Toolkit α) (xyz : String) : Option String :=
  (xyz_to_mol tk xyz).map tk.molToSmiles

/-- Spec-side composition for the refinement claim: `xyz_to_smiles` should be
exactly the canonical-SMILES serializer composed with `xyz_to_mol`. -/
def xyz_to_smiles_spec {α : Type} (tk : Toolkit α) (xyz : String) : Option String :=
  Option.map tk.molToSmiles (xyz_to_mol tk xyz)

/-- The body of `unsaturated_xyz_to_mol` (src/mofa/utils/xyz.py lines 65-109),
generic over the scalar type and the per-bond distance computation:

1. `Chem.MolFromXYZBlock(xyz)`;
2. `rdDetermineBonds.DetermineConnectivity(mol)`; the conformer positions
   are read after this call and consumed by the bond-order loop;
3. the bond-order loop (`setBondOrders`);
4. `mol.UpdatePropertyCache()`;
5. `Chem.AddHs(mol, explicitOnly=True, addCoords=True)` — the source DISCARDS
   the returned molecule (RDKit `AddHs` returns a new molecule and does not
   mutate its argument), which the binding of step 5 to an unused variable
   reproduces;
6. `return mol`. -/
def unsaturatedPipeline {α : Type} [LinearOrder α] [Add α] [Inhabited α]
    (distFn : (Fin 3 → α) → (Fin 3 → α) → α) (tk : Toolkit α)
    (BONDS_2 BONDS_3 : String → String → Option α) (margins : Fin 3 → α)
    (xyz : String) : Option (Mol α) :=
  (tk.molFromXYZBlock xyz).map fun parsed =>
    let mol := tk.determineConnectivity parsed
    let mol := setBondOrders distFn BONDS_2 BONDS_3 margins mol
    let mol := UpdatePropertyCache mol
    let _unused := tk.addHs mol true true
    mol

/-- The distance computed at src/mofa/utils/xyz.py lines 81-83:
`np.linalg.norm(positions[i, :] - positions[j, :]) * 100`, the 2-norm of the
3-vector of coordinate differences, scaled to picometers. -/
noncomputable def bondDistancePm (p q : Fin 3 → ℝ) : ℝ :=
  Real.sqrt (∑ i : Fin 3, (p i - q i) ^ 2) * 100

/-- `unsaturated_xyz_to_mol` (src/mofa/utils/xyz.py lines 65-109): the
pipeline over real scalars with the actual distance computation. -/
noncomputable def unsaturated_xyz_to_mol (tk : Toolkit ℝ)
    (BONDS_2 BONDS_3 : String → String → Option ℝ) (margins : Fin 3 → ℝ)
    (xyz : String) : Option (Mol ℝ) :=
  unsaturatedPipeline bondDistancePm tk BONDS_2 BONDS_3 margins xyz

/-- A 3-vector of reals reinterpreted as a point of Euclidean 3-space, to
state distances against the metric-space structure. -/
def toEuclidean (p : Fin 3 → ℝ) : EuclideanSpace ℝ (Fin 3) := p

/-- The RDKit entry points used by `smiles_to_xyz`, as abstract collaborators
over an abstract molecule type `μ`.  `embedImpl` is the deterministic core of
`AllChem.EmbedMolecule`: the conformer it produces is a function of the
molecule and of the seed actually used by the distance-geometry code. -/
structure SmilesToolkit (μ : Type) where
  molFromSmiles : String → μ
  addHs : μ → μ
  embedImpl : μ → Int → μ
  mmffOptimize : μ → μ
  molToXYZBlock : μ → String

/-- Modelled from RDKit's documented contract for `AllChem.EmbedMolecule`:
when `randomSeed` is negative (the default is `-1`) the embedding draws a
fresh random seed from ambient process randomness (`entropy` here), and any
fixed non-negative `randomSeed` makes the result reproducible, a pure function
of the molecule and that seed. -/
def embedMolecule {μ : Type} (tk : SmilesToolkit μ) (mol : μ)
    (randomSeed : Int) (entropy : Int) : μ :=
  tk.embedImpl mol (if randomSeed < 0 then entropy else randomSeed)

/-- Trace events: one per toolkit call made by `smiles_to_xyz`, recording the
argument that identifies the call (`randomSeed` for the embedding). -/
inductive TkEvent where
  | molFromSmiles (smiles : String)
  | addHs
  | embedMolecule (randomSeed : Int)
  | mmffOptimize
  | molToXYZBlock
  deriving DecidableEq, Repr

/-- `smiles_to_xyz` (src/mofa/utils/xyz.py lines 41-62).  Body, inside
`with _generate_lock:`:
```text
mol = Chem.MolFromSmiles(smiles)
mol = Chem.AddHs(mol)
AllChem.EmbedMolecule(mol, randomSeed=1)
AllChem.MMFFOptimizeMolecule(mol)
xyz = Chem.MolToXYZBlock(mol)
return xyz
```
The embedding and the optimization mutate `mol` in place, modelled by
rebinding.  `entropy` is the ambient process randomness the embedding would
consume if no fixed seed were supplied.  The value is returned together with
the trace of the toolkit calls the body makes, in order. -/
def smiles_to_xyz {μ : Type} (tk : SmilesToolkit μ) (entropy : Int)
    (smiles : String) : String × List TkEvent :=
  let mol := tk.molFromSmiles smiles
  let trace := [TkEvent.molFromSmiles smiles]
  let mol := tk.addHs mol
  let trace := trace ++ [TkEvent.addHs]
  let mol := embedMolecule tk mol 1 entropy
  let trace := trace ++ [TkEvent.embedMolecule 1]
  let mol := tk.mmffOptimize mol
  let trace := trace ++ [TkEvent.mmffOptimize]
  let xyz := tk.molToXYZBlock mol
  let trace := trace ++ [TkEvent.molToXYZBlock]
  (xyz, trace)

/-!
Lock discipline of `smiles_to_xyz`.  The module holds one global
`threading.Lock` (`_generate_lock`, src/mofa/utils/xyz.py line 10) and the
whole body of `smiles_to_xyz` runs inside `with _generate_lock:`.  This is
modelled as an interleaving transition system over an arbitrary set `T` of
threads, each executing `smiles_to_xyz`.  Program counters:

* `0` — before the `with` statement (waiting to acquire);
* `1` — holding the lock, about to call `MolFromSmiles`;
* `2` — about to call `AddHs`;
* `3` — about to call `EmbedMolecule` (the 3D-embedding routine);
* `4` — about to call `MMFFOptimizeMolecule`;
* `5` — about to call `MolToXYZBlock` and return (exiting the `with` block
  releases the lock);
* `6` — done.
-/

/-- Global state of the interleaving model: who holds `_generate_lock`
(`none` when free) and each thread's program counter. -/
structure LockState (T : Type) where
  lock : Option T
  pc : T → Nat

/-- One interleaving step.  `threading.Lock` semantics: `acquire` succeeds
only when the lock is free and records the holder; a thread inside the `with`
block advances through the five calls; completing the last call exits the
`with` block, which releases the lock. -/
inductive LockStep {T : Type} [DecidableEq T] : LockState T → LockState T → Prop where
  | acquire (s : LockState T) (t : T) :
      s.pc t = 0 → s.lock = none →
      LockStep s ⟨some t, Function.update s.pc t 1⟩
  | work (s : LockState T) (t : T) :
      1 ≤ s.pc t → s.pc t ≤ 4 →
      LockStep s ⟨s.lock, Function.update s.pc t (s.pc t + 1)⟩
  | exitWith (s : LockState T) (t : T) :
      s.pc t = 5 →
      LockStep s ⟨none, Function.update s.pc t 6⟩

/-- States reachable from the initial state (lock free, every thread before
its `with` statement). -/
inductive LockReachable {T : Type} [DecidableEq T] : LockState T → Prop where
  | init : LockReachable ⟨none, fun _ => 0⟩
  | step {s s₂ : LockState T} : LockReachable s → LockStep s s₂ → LockReachable s₂

/-!
Concrete instantiation over `ℤ`, used to evaluate the pipeline on explicit
inputs (integer scalars reduce in the kernel, so `decide` and `rfl` work).
The tables carry the carbon-carbon entries in picometers; the example toolkit
realizes the black-box RDKit calls on a two-carbon molecule whose positions
are recorded directly in picometers, so the example distance function is the
one-dimensional Euclidean distance with no further unit conversion.
-/

/-- Example double-bond length table (pm): one carbon-carbon entry. -/
def exBONDS_2 : String → String → Option ℤ := fun t1 t2 =>
  if t1 = "C" ∧ t2 = "C" then some 134 else none

/-- Example triple-bond length table (pm): one carbon-carbon entry. -/
def exBONDS_3 : String → String → Option ℤ := fun t1 t2 =>
  if t1 = "C" ∧ t2 = "C" then some 120 else none

/-- Example margins, indexed like `MARGINS_EDM`: `margins 1` is the double
margin, `margins 2` the triple margin. -/
def exMargins : Fin 3 → ℤ := ![10, 5, 3]

/-- Distance function for examples whose atom positions are in picometers and
differ only in their first coordinate: there the 2-norm of the difference is
the absolute difference of the first coordinates. -/
def exDist : (Fin 3 → ℤ) → (Fin 3 → ℤ) → ℤ := fun p q => |p 0 - q 0|

/-- Example XYZ input: two carbon atoms 1.18 angstroms (118 pm) apart. -/
def exXyz : String := "2\n\nC 0.00 0.00 0.00\nC 1.18 0.00 0.00"

/-- The atoms of the example molecule, positions in pm. -/
def exAtoms : List (Atom ℤ) :=
  [⟨"C", ![0, 0, 0]⟩, ⟨"C", ![118, 0, 0]⟩]

/-- What parsing `exXyz` yields: atoms with positions, no bonds yet. -/
def exParsedMol : Mol ℤ := { atoms := exAtoms, bonds := [] }

/-- Example toolkit over `ℤ`: parses exactly `exXyz`; connectivity finds the
one carbon-carbon bond; bond orders and serialization are immaterial stubs of
the black boxes; `addHs` follows RDKit `Chem.AddHs` semantics, returning a
NEW molecule with the hydrogens appended, leaving its argument untouched. -/
def exTk : Toolkit ℤ :=
  { molFromXYZBlock := fun s => if s = exXyz then some exParsedMol else none
    determineConnectivity := fun m => { m with bonds := [⟨0, 1, BondType.unspecified⟩] }
    determineBondOrders := fun m => m
    addHs := fun m _ _ => { m with atoms := m.atoms ++ [⟨"H", ![0, 0, 0]⟩] }
    molToSmiles := fun _ => "C#C" }

/-- The molecule `unsaturatedPipeline` returns on `exXyz` with `exTk`:
the carbon-carbon distance is 118 pm, below both margin-adjusted thresholds
(139 and 123), so the bond is classified triple; no hydrogens appear. -/
def exResultMol : Mol ℤ :=
  { atoms := exAtoms, bonds := [⟨0, 1, BondType.triple⟩], propsComputed := true }

/-- A molecule over an element pair absent from the tables, to exercise the
default-to-single branch. -/
def exMolZr : Mol ℤ :=
  { atoms := [⟨"Zr", ![0, 0, 0]⟩, ⟨"O", ![100, 0, 0]⟩],
    bonds := [⟨0, 1, BondType.unspecified⟩] }

/-- The example molecule after connectivity determination, input to the
bond-order loop. -/
def exConnectedMol : Mol ℤ :=
  { atoms := exAtoms, bonds := [⟨0, 1, BondType.unspecified⟩] }

/-!
Helper lemmas about the classifier and the bond-order loop.
-/

/-- The classifier only ever returns `single`, `double` or `triple`. -/
theorem inferBondType_cases {α : Type} [LinearOrder α] [Add α]
    (BONDS_2 BONDS_3 : String → String → Option α) (margins : Fin 3 → α)
    (type_1 type_2 : String) (distance : α) :
    inferBondType BONDS_2 BONDS_3 margins type_1 type_2 distance = BondType.single ∨
    inferBondType BONDS_2 BONDS_3 margins type_1 type_2 distance = BondType.double ∨
    inferBondType BONDS_2 BONDS_3 margins type_1 type_2 distance = BondType.triple := by
  unfold inferBondType
  cases h2 : BONDS_2 type_1 type_2 with
  | none => simp
  | some b2 =>
    by_cases hd2 : distance < b2 + margins 1
    · cases h3 : BONDS_3 type_1 type_2 with
      | none => simp [hd2]
      | some b3 =>
        by_cases hd3 : distance < b3 + margins 2 <;> simp [hd2, hd3]
    · simp [hd2]

/-- Every bond of the loop's output arises from a bond of the input with the
same endpoints and the inferred type. -/
theorem mem_setBondOrders {α : Type} [LinearOrder α] [Add α] [Inhabited α]
    (distFn : (Fin 3 → α) → (Fin 3 → α) → α)
    (BONDS_2 BONDS_3 : String → String → Option α) (margins : Fin 3 → α)
    (mol : Mol α) (bond : Bond)
    (hmem : bond ∈ (setBondOrders distFn BONDS_2 BONDS_3 margins mol).bonds) :
    ∃ b0 ∈ mol.bonds, bond =
      ⟨b0.beginIdx, b0.endIdx,
        inferBondType BONDS_2 BONDS_3 margins
          (mol.symbol b0.beginIdx) (mol.symbol b0.endIdx)
          (distFn (mol.position b0.beginIdx) (mol.position b0.endIdx))⟩ := by
  simp only [setBondOrders, List.mem_map] at hmem
  obtain ⟨b0, hb0, heq⟩ := hmem
  exact ⟨b0, hb0, heq.symm⟩

/-- When the element pair has entries in both tables and the margin-adjusted
triple threshold does not exceed the margin-adjusted double threshold, the
classifier reduces to a three-way threshold comparison. -/
theorem inferBondType_both_some {α : Type} [LinearOrder α] [Add α]
    (BONDS_2 BONDS_3 : String → String → Option α) (margins : Fin 3 → α)
    (type_1 type_2 : String) (distance b2 b3 : α)
    (h2 : BONDS_2 type_1 type_2 = some b2) (h3 : BONDS_3 type_1 type_2 = some b3)
    (hord : b3 + margins 2 ≤ b2 + margins 1) :
    inferBondType BONDS_2 BONDS_3 margins type_1 type_2 distance =
      if distance < b3 + margins 2 then BondType.triple
      else if distance < b2 + margins 1 then BondType.double
      else BondType.single := by
  simp only [inferBondType, h2, h3]
  by_cases hd3 : distance < b3 + margins 2
  · have hd2 : distance < b2 + margins 1 := lt_of_lt_of_le hd3 hord
    simp [hd2, hd3]
  · by_cases hd2 : distance < b2 + margins 1 <;> simp [hd2, hd3]

/-- C1: For every bond considered by the bond-order classifier in
`unsaturated_xyz_to_mol` whose element pair has entries in both the
double-bond and triple-bond reference tables — with the property of the
shipped tables that the margin-adjusted triple threshold does not exceed the
margin-adjusted double threshold — the bond is classified as triple if the
interatomic distance is strictly below the tabulated triple-bond length plus
the triple margin (`margins 2`); else as double if the distance is strictly
below the tabulated double-bond length plus the double margin (`margins 1`);
else as single. -/
theorem bond_classification_with_both_tables {α : Type} [LinearOrder α] [Add α] [Inhabited α]
    (distFn : (Fin 3 → α) → (Fin 3 → α) → α)
    (BONDS_2 BONDS_3 : String → String → Option α) (margins : Fin 3 → α)
    (mol : Mol α) (bond : Bond) (b2 b3 : α)
    (hmem : bond ∈ (setBondOrders distFn BONDS_2 BONDS_3 margins mol).bonds)
    (h2 : BONDS_2 (mol.symbol bond.beginIdx) (mol.symbol bond.endIdx) = some b2)
    (h3 : BONDS_3 (mol.symbol bond.beginIdx) (mol.symbol bond.endIdx) = some b3)
    (hord : b3 + margins 2 ≤ b2 + margins 1) :
    bond.type =
      if distFn (mol.position bond.beginIdx) (mol.position bond.endIdx) < b3 + margins 2
      then BondType.triple
      else if distFn (mol.position bond.beginIdx) (mol.position bond.endIdx) < b2 + margins 1
      then BondType.double
      else BondType.single := by
  obtain ⟨b0, _, rfl⟩ := mem_setBondOrders distFn BONDS_2 BONDS_3 margins mol bond hmem
  exact inferBondType_both_some BONDS_2 BONDS_3 margins _ _ _ b2 b3 h2 h3 hord

/-- Witness for C1: the example carbon-carbon bond at 118 pm, with thresholds
139 (double) and 123 (triple), is classified triple. -/
theorem bond_classification_with_both_tables_witness :
    ((⟨0, 1, BondType.triple⟩ : Bond) ∈
      (setBondOrders exDist exBONDS_2 exBONDS_3 exMargins exConnectedMol).bonds) ∧
    exBONDS_2 (exConnectedMol.symbol 0) (exConnectedMol.symbol 1) = some 134 ∧
    exBONDS_3 (exConnectedMol.symbol 0) (exConnectedMol.symbol 1) = some 120 ∧
    (120 : ℤ) + exMargins 2 ≤ 134 + exMargins 1 ∧
    (⟨0, 1, BondType.triple⟩ : Bond).type =
      (if exDist (exConnectedMol.position 0) (exConnectedMol.position 1) < 120 + exMargins 2
       then BondType.triple
       else if exDist (exConnectedMol.position 0) (exConnectedMol.position 1) < 134 + exMargins 1
       then BondType.double
       else BondType.single) :=
  ⟨by decide, by decide, by decide, by decide,
    bond_classification_with_both_tables exDist exBONDS_2 exBONDS_3 exMargins
      exConnectedMol ⟨0, 1, BondType.triple⟩ 134 120
      (by decide) (by decide) (by decide) (by decide)⟩

/-- C3: For every bond whose element pair (begin-atom symbol keyed first, then
end-atom symbol) has no entry in the double-bond reference table, the
bond-order loop of `unsaturated_xyz_to_mol` sets the bond type to single,
regardless of the interatomic distance (any `distFn`) and regardless of any
entry in the triple-bond table (any `BONDS_3`). -/
theorem missing_pair_defaults_to_single {α : Type} [LinearOrder α] [Add α] [Inhabited α]
    (distFn : (Fin 3 → α) → (Fin 3 → α) → α)
    (BONDS_2 BONDS_3 : String → String → Option α) (margins : Fin 3 → α)
    (mol : Mol α) (bond : Bond)
    (hmem : bond ∈ (setBondOrders distFn BONDS_2 BONDS_3 margins mol).bonds)
    (hnone : BONDS_2 (mol.symbol bond.beginIdx) (mol.symbol bond.endIdx) = none) :
    bond.type = BondType.single := by
  obtain ⟨b0, _, rfl⟩ := mem_setBondOrders distFn BONDS_2 BONDS_3 margins mol bond hmem
  simp only at hnone
  simp [inferBondType, hnone]

/-- Witness for C3: the zirconium-oxygen pair is absent from the double-bond
table, so its bond comes out single. -/
theorem missing_pair_defaults_to_single_witness :
    ((⟨0, 1, BondType.single⟩ : Bond) ∈
      (setBondOrders exDist exBONDS_2 exBONDS_3 exMargins exMolZr).bonds) ∧
    exBONDS_2 (exMolZr.symbol 0) (exMolZr.symbol 1) = none ∧
    (⟨0, 1, BondType.single⟩ : Bond).type = BondType.single :=
  ⟨by decide, by decide,
    missing_pair_defaults_to_single exDist exBONDS_2 exBONDS_3 exMargins exMolZr
      ⟨0, 1, BondType.single⟩ (by decide) (by decide)⟩

/-- C8: the classifier returns triple exactly when the element pair has an
entry in the double-bond table with the distance below the margin-adjusted
double threshold AND an entry in the triple-bond table with the distance below
the margin-adjusted triple threshold; in particular a pair present only in the
triple-bond table can never yield a triple bond. -/
theorem triple_classification_characterization {α : Type} [LinearOrder α] [Add α]
    (BONDS_2 BONDS_3 : String → String → Option α) (margins : Fin 3 → α)
    (type_1 type_2 : String) (distance : α) :
    inferBondType BONDS_2 BONDS_3 margins type_1 type_2 distance = BondType.triple ↔
      (∃ b2, BONDS_2 type_1 type_2 = some b2 ∧ distance < b2 + margins 1) ∧
      (∃ b3, BONDS_3 type_1 type_2 = some b3 ∧ distance < b3 + margins 2) := by
  unfold inferBondType
  cases h2 : BONDS_2 type_1 type_2 with
  | none => simp [h2]
  | some b2 =>
    by_cases hd2 : distance < b2 + margins 1
    · cases h3 : BONDS_3 type_1 type_2 with
      | none => simp [h2, h3, hd2]
      | some b3 =>
        by_cases hd3 : distance < b3 + margins 2 <;> simp [h2, h3, hd2, hd3]
    · simp [h2, hd2]

/-- C9: every bond of the molecule returned by the `unsaturated_xyz_to_mol`
pipeline has its type set to exactly one of single, double or triple — never
aromatic or any other bond type. -/
theorem returned_bond_types_in_range {α : Type} [LinearOrder α] [Add α] [Inhabited α]
    (distFn : (Fin 3 → α) → (Fin 3 → α) → α) (tk : Toolkit α)
    (BONDS_2 BONDS_3 : String → String → Option α) (margins : Fin 3 → α)
    (xyz : String) (mol : Mol α)
    (h : unsaturatedPipeline distFn tk BONDS_2 BONDS_3 margins xyz = some mol) :
    ∀ bond ∈ mol.bonds,
      bond.type = BondType.single ∨ bond.type = BondType.double ∨
        bond.type = BondType.triple := by
  unfold unsaturatedPipeline at h
  cases hp : tk.molFromXYZBlock xyz with
  | none => rw [hp] at h; simp at h
  | some parsed =>
    rw [hp] at h
    simp only [Option.map_some'] at h
    have hbody := Option.some.inj h
    subst hbody
    intro bond hb
    have hmem : bond ∈
        (setBondOrders distFn BONDS_2 BONDS_3 margins
          (tk.determineConnectivity parsed)).bonds := hb
    obtain ⟨b0, _, rfl⟩ :=
      mem_setBondOrders distFn BONDS_2 BONDS_3 margins _ bond hmem
    exact inferBondType_cases BONDS_2 BONDS_3 margins _ _ _

/-- Witness for C9: the pipeline run on the example input returns the example
molecule, whose one bond is triple. -/
theorem returned_bond_types_in_range_witness :
    (unsaturatedPipeline exDist exTk exBONDS_2 exBONDS_3 exMargins exXyz =
      some exResultMol) ∧
    ((⟨0, 1, BondType.triple⟩ : Bond) ∈ exResultMol.bonds) ∧
    ((⟨0, 1, BondType.triple⟩ : Bond).type = BondType.single ∨
     (⟨0, 1, BondType.triple⟩ : Bond).type = BondType.double ∨
     (⟨0, 1, BondType.triple⟩ : Bond).type = BondType.triple) :=
  have hpipe : unsaturatedPipeline exDist exTk exBONDS_2 exBONDS_3 exMargins exXyz =
      some exResultMol := rfl
  ⟨hpipe, by decide,
    returned_bond_types_in_range exDist exTk exBONDS_2 exBONDS_3 exMargins exXyz
      exResultMol hpipe ⟨0, 1, BondType.triple⟩ (by decide)⟩

/-- C2, evaluated at a failing input: the source binds the result of
`Chem.AddHs(mol, explicitOnly=True, addCoords=True)` to nothing and returns
the pre-`AddHs` molecule, so the molecule `unsaturated_xyz_to_mol` returns
contains no hydrogens, even though the `addHs` collaborator applied to that
same molecule would have produced one with a hydrogen appended. -/
theorem unsaturated_addHs_result_discarded :
    (unsaturatedPipeline exDist exTk exBONDS_2 exBONDS_3 exMargins exXyz).map
        (fun m => m.atoms.map Atom.symbol) = some ["C", "C"] ∧
    (exTk.addHs exResultMol true true).atoms.map Atom.symbol = ["C", "C", "H"] :=
  ⟨rfl, rfl⟩

/-- C4: the distance `unsaturated_xyz_to_mol` compares against the threshold
tables is the Euclidean distance between the conformer positions of the bond's
two atoms multiplied by 100 (angstroms to picometers): running the pipeline
with its actual distance computation `bondDistancePm` coincides with running
it with the metric-space Euclidean distance scaled by 100. -/
theorem compared_distance_is_euclidean_pm (tk : Toolkit ℝ)
    (BONDS_2 BONDS_3 : String → String → Option ℝ) (margins : Fin 3 → ℝ)
    (xyz : String) :
    unsaturated_xyz_to_mol tk BONDS_2 BONDS_3 margins xyz =
      unsaturatedPipeline (fun p q => dist (toEuclidean p) (toEuclidean q) * 100)
        tk BONDS_2 BONDS_3 margins xyz := by
  have hfn : bondDistancePm =
      fun p q : Fin 3 → ℝ => dist (toEuclidean p) (toEuclidean q) * 100 := by
    funext p q
    unfold bondDistancePm toEuclidean
    rw [EuclideanSpace.dist_eq]
    simp [Real.dist_eq, sq_abs]
  rw [unsaturated_xyz_to_mol, hfn]

/-- C5: on every SMILES input, `smiles_to_xyz` makes exactly these toolkit
calls in this order — parse the SMILES, add explicit hydrogens, embed 3D
coordinates, optimize the geometry with the MMFF force field, serialize the
conformer to XYZ text — and returns the serialized text. -/
theorem smiles_to_xyz_call_sequence {μ : Type} (tk : SmilesToolkit μ)
    (entropy : Int) (smiles : String) :
    smiles_to_xyz tk entropy smiles =
      (tk.molToXYZBlock (tk.mmffOptimize
          (embedMolecule tk (tk.addHs (tk.molFromSmiles smiles)) 1 entropy)),
       [TkEvent.molFromSmiles smiles, TkEvent.addHs, TkEvent.embedMolecule 1,
        TkEvent.mmffOptimize, TkEvent.molToXYZBlock]) := rfl

/-- C6: `xyz_to_smiles` is exactly the canonical-SMILES serializer composed
with `xyz_to_mol`. -/
theorem xyz_to_smiles_is_composition {α : Type} (tk : Toolkit α) (xyz : String) :
    xyz_to_smiles tk xyz = xyz_to_smiles_spec tk xyz := rfl

/-- C10: because the embedding call in `smiles_to_xyz` fixes `randomSeed=1`,
the result does not depend on the ambient process randomness the embedding
would otherwise draw from: two invocations on the same SMILES string, under
any two entropy values, return identical XYZ text (and identical traces). -/
theorem smiles_to_xyz_entropy_independent {μ : Type} (tk : SmilesToolkit μ)
    (smiles : String) (entropy₁ entropy₂ : Int) :
    smiles_to_xyz tk entropy₁ smiles = smiles_to_xyz tk entropy₂ smiles := by
  simp [smiles_to_xyz, embedMolecule]

/-- The mutual-exclusion invariant of `_generate_lock`: any thread inside the
`with` block is the lock holder. -/
theorem lockReachable_inv {T : Type} [DecidableEq T] (s : LockState T)
    (h : LockReachable s) :
    ∀ t, 1 ≤ s.pc t → s.pc t ≤ 5 → s.lock = some t := by
  induction h with
  | init => intro t h1 _; simp at h1
  | step _ hstep ih =>
    cases hstep with
    | acquire t hpc hlock =>
      intro u h1 h5
      dsimp only at h1 h5 ⊢
      by_cases hu : u = t
      · subst hu; rfl
      · rw [Function.update_noteq hu] at h1 h5
        exact absurd (ih u h1 h5) (by rw [hlock]; simp)
    | work t hge hle =>
      intro u h1 h5
      dsimp only at h1 h5 ⊢
      by_cases hu : u = t
      · subst hu
        exact ih u hge (by omega)
      · rw [Function.update_noteq hu] at h1 h5
        exact ih u h1 h5
    | exitWith t hpc =>
      intro u h1 h5
      dsimp only at h1 h5 ⊢
      by_cases hu : u = t
      · subst hu
        rw [Function.update_same] at h1 h5
        omega
      · rw [Function.update_noteq hu] at h1 h5
        have hut := (ih u h1 h5).symm.trans (ih t (by omega) (by omega))
        exact absurd (Option.some.inj hut) hu

/-- C7: under `threading.Lock` semantics, the whole body of `smiles_to_xyz`
runs while holding the one module-global lock — every thread inside the
`with` block is the lock holder — so no two threads are ever simultaneously
at the 3D-embedding call (program counter 3). -/
theorem embed_mutual_exclusion (T : Type) [DecidableEq T] (s : LockState T)
    (h : LockReachable s) :
    (∀ t, 1 ≤ s.pc t → s.pc t ≤ 5 → s.lock = some t) ∧
    ∀ t₁ t₂, t₁ ≠ t₂ → ¬(s.pc t₁ = 3 ∧ s.pc t₂ = 3) := by
  refine ⟨lockReachable_inv s h, ?_⟩
  rintro t₁ t₂ hne ⟨h1, h2⟩
  have e1 := lockReachable_inv s h t₁ (by omega) (by omega)
  have e2 := lockReachable_inv s h t₂ (by omega) (by omega)
  exact hne (Option.some.inj (e1.symm.trans e2))

/-- Witness for C7: the initial two-thread state is reachable, no thread holds
the lock or sits at the embedding call there. -/
theorem embed_mutual_exclusion_witness :
    (∀ t : Bool, 1 ≤ (⟨none, fun _ => 0⟩ : LockState Bool).pc t →
        (⟨none, fun _ => 0⟩ : LockState Bool).pc t ≤ 5 →
        (⟨none, fun _ => 0⟩ : LockState Bool).lock = some t) ∧
    ∀ t₁ t₂ : Bool, t₁ ≠ t₂ →
      ¬((⟨none, fun _ => 0⟩ : LockState Bool).pc t₁ = 3 ∧
        (⟨none, fun _ => 0⟩ : LockState Bool).pc t₂ = 3) :=
  embed_mutual_exclusion Bool ⟨none, fun _ => 0⟩ LockReachable.init

end MofaXyz
